import Mathlib

/-!
Verification of the candidate-selection and download-job engine of
ncbi-genome-download against its natural-language specification.

The Python code is shallowly embedded: Python strings are modelled as
lists of characters (`Str`), so that every operation (suffix tests,
splitting, trimming, replacement) is an executable structural recursion
that the Lean kernel can evaluate on concrete inputs.  Fallible Python
code (functions that raise `ValueError`) is modelled with `Except`,
iterators with explicit list state, and filesystem / network effects
with explicit oracle functions passed as arguments.

Sources embedded here:
  - ncbi_genome_download/config.py   (NgdConfig: domains, setters, predicates)
  - ncbi_genome_download/core.py     (filtering, checksum lookup, job building,
                                      strain labels, config_download outcomes)
  - ncbi_genome_download/summary.py  (SummaryReader header scan and record reader)
-/

set_option autoImplicit false

namespace NGD

/-- Python strings are modelled as lists of characters. -/
abbrev Str := List Char

/-- Convert a Lean string literal to the character-list model. -/
def str (s : String) : Str := s.data

/-- Python `s.endswith(t)`. -/
def pyEndsWith (s t : Str) : Bool := t.isSuffixOf s

/-- Python `s.startswith(t)`. -/
def pyStartsWith (s t : Str) : Bool := t.isPrefixOf s

/-- Python `s.split(sep)` for a single-character separator: always returns at
least one piece, and consecutive separators produce empty pieces. -/
def pySplit (sep : Char) : Str → List Str
  | [] => [[]]
  | c :: rest =>
    if c = sep then
      [] :: pySplit sep rest
    else
      match pySplit sep rest with
      | [] => [[c]]
      | piece :: pieces => (c :: piece) :: pieces

/-- Python `sep.join(parts)` for `sep = " "`. -/
def joinSpace : List Str → Str
  | [] => []
  | [p] => p
  | p :: rest => p ++ ' ' :: joinSpace rest

/-- Characters stripped by Python `str.strip()` (the ASCII whitespace set). -/
def isPySpace (c : Char) : Bool :=
  c = ' ' || c = '\t' || c = '\n' || c = '\x0d' || c = '\x0b' || c = '\x0c'

/-- Python `s.strip()`: remove leading and trailing whitespace. -/
def pyStrip (s : Str) : Str :=
  ((s.dropWhile isPySpace).reverse.dropWhile isPySpace).reverse

/-- Python `s.replace(old, new)` for single characters `old`, `new`. -/
def replaceChar (old new : Char) (s : Str) : Str :=
  s.map fun c => if c = old then new else c

/-- Python `needle in hay` substring containment. -/
def containsSub (needle : Str) : Str → Bool
  | [] => needle.isPrefixOf []
  | c :: rest => needle.isPrefixOf (c :: rest) || containsSub needle rest

/-- Python `s.replace(old, new, 1)`: replace the first occurrence only.
Used for `convert_ftp_url` in core.py. -/
def replaceFirst (old new : Str) : Str → Str
  | [] => if old.isPrefixOf [] then new else []
  | c :: rest =>
    if old.isPrefixOf (c :: rest) then new ++ (c :: rest).drop old.length
    else c :: replaceFirst old new rest

/-- Python `os.path.join(a, b)` for the relative paths built by core.py. -/
def pathJoin (a b : Str) : Str := a ++ '/' :: b

/-- One parsed line of a per-assembly checksum manifest, as produced by
`parse_checksums` in core.py: a `{checksum, file}` mapping. -/
structure ChecksumEntry where
  checksum : Str
  file : Str
deriving DecidableEq, Repr

/-- The `NgdConfig._FORMATS` ordered mapping from file-format keys to NCBI
filename endings (config.py). -/
def FORMATS : List (Str × Str) := [
  (str "genbank", str "_genomic.gbff.gz"),
  (str "fasta", str "_genomic.fna.gz"),
  (str "rm", str "_rm.out.gz"),
  (str "features", str "_feature_table.txt.gz"),
  (str "gff", str "_genomic.gff.gz"),
  (str "protein-fasta", str "_protein.faa.gz"),
  (str "genpept", str "_protein.gpff.gz"),
  (str "wgs", str "_wgsmaster.gbff.gz"),
  (str "cds-fasta", str "_cds_from_genomic.fna.gz"),
  (str "rna-fna", str "_rna.fna.gz"),
  (str "rna-fasta", str "_rna_from_genomic.fna.gz"),
  (str "assembly-report", str "_assembly_report.txt"),
  (str "assembly-stats", str "_assembly_stats.txt"),
  (str "translated-cds", str "_translated_cds.faa.gz")
]

/-- The `NgdConfig.get_fileending` classmethod (config.py).  In Python a key
outside the table raises `KeyError`; all uses go through validated format
keys, and the totalisation maps unknown keys to the empty ending. -/
def get_fileending (file_format : Str) : Str :=
  (FORMATS.lookup file_format).getD []

/-- The `get_name_and_checksum` function (core.py): scan the parsed checksum
list for the first file ending in `ending`, skipping the
`_cds_from_genomic.fna.gz` / `_rna_from_genomic.fna.gz` entries whenever a
different ending was asked for, and raise `ValueError` when nothing is left. -/
def noFormatError : Str := str "No entry for file ending in requested ending"

def get_name_and_checksum (checksums : List ChecksumEntry) (ending : Str) :
    Except Str (Str × Str) :=
  match checksums with
  | [] => .error noFormatError
  | entry :: rest =>
    if !(pyEndsWith entry.file ending) then
      -- wrong file
      get_name_and_checksum rest ending
    else if (pyEndsWith entry.file (get_fileending (str "cds-fasta"))
               && !(ending = get_fileending (str "cds-fasta")))
            || (pyEndsWith entry.file (get_fileending (str "rna-fasta"))
               && !(ending = get_fileending (str "rna-fasta"))) then
      -- still the wrong file
      get_name_and_checksum rest ending
    else
      .ok (entry.file, entry.checksum)

/-- An entry in the checksum list that `get_name_and_checksum` may legally
return for `ending`: it carries the requested suffix, and it is one of the
two `from_genomic` files only when that exact suffix was requested. -/
def goodMatch (entry : ChecksumEntry) (ending : Str) : Prop :=
  pyEndsWith entry.file ending = true
  ∧ (pyEndsWith entry.file (get_fileending (str "cds-fasta")) = true
      → ending = get_fileending (str "cds-fasta"))
  ∧ (pyEndsWith entry.file (get_fileending (str "rna-fasta")) = true
      → ending = get_fileending (str "rna-fasta"))

instance (entry : ChecksumEntry) (ending : Str) : Decidable (goodMatch entry ending) := by
  unfold goodMatch
  infer_instance

lemma gnac_skip_not_good (entry : ChecksumEntry) (ending : Str)
    (hskip : ((pyEndsWith entry.file (get_fileending (str "cds-fasta"))
                 && !(decide (ending = get_fileending (str "cds-fasta"))))
              || (pyEndsWith entry.file (get_fileending (str "rna-fasta"))
                 && !(decide (ending = get_fileending (str "rna-fasta"))))) = true) :
    ¬ goodMatch entry ending := by
  intro hgood
  rcases hgood with ⟨_, hcds, hrna⟩
  rcases Bool.or_eq_true_iff.mp hskip with h | h <;>
    rcases Bool.and_eq_true_iff.mp h with ⟨hends, hne⟩
  · have hne' : ¬ ending = get_fileending (str "cds-fasta") := by simpa using hne
    exact hne' (hcds hends)
  · have hne' : ¬ ending = get_fileending (str "rna-fasta") := by simpa using hne
    exact hne' (hrna hends)

lemma gnac_keep_good (entry : ChecksumEntry) (ending : Str)
    (hend : pyEndsWith entry.file ending = true)
    (hskip : ¬ (((pyEndsWith entry.file (get_fileending (str "cds-fasta"))
                 && !(decide (ending = get_fileending (str "cds-fasta"))))
              || (pyEndsWith entry.file (get_fileending (str "rna-fasta"))
                 && !(decide (ending = get_fileending (str "rna-fasta"))))) = true)) :
    goodMatch entry ending := by
  refine ⟨hend, ?_, ?_⟩ <;> intro hends <;> by_contra hne <;>
    apply hskip <;> simp [hends, hne]

lemma gnac_ok_sound (checksums : List ChecksumEntry) (ending : Str) (f c : Str)
    (h : get_name_and_checksum checksums ending = .ok (f, c)) :
    ChecksumEntry.mk c f ∈ checksums ∧ goodMatch ⟨c, f⟩ ending := by
  induction checksums with
  | nil => simp [get_name_and_checksum] at h
  | cons entry rest ih =>
    by_cases hend : pyEndsWith entry.file ending = true
    · by_cases hskip : ((pyEndsWith entry.file (get_fileending (str "cds-fasta"))
                 && !(decide (ending = get_fileending (str "cds-fasta"))))
              || (pyEndsWith entry.file (get_fileending (str "rna-fasta"))
                 && !(decide (ending = get_fileending (str "rna-fasta"))))) = true
      · rw [show get_name_and_checksum (entry :: rest) ending
              = get_name_and_checksum rest ending by
            simp [get_name_and_checksum, hend, hskip]] at h
        exact ⟨List.mem_cons_of_mem _ (ih h).1, (ih h).2⟩
      · rw [show get_name_and_checksum (entry :: rest) ending
              = .ok (entry.file, entry.checksum) by
            simp [get_name_and_checksum, hend, hskip]] at h
        have hf : f = entry.file ∧ c = entry.checksum := by
          simpa [eq_comm] using h
        rcases hf with ⟨hf, hc⟩
        subst hf; subst hc
        exact ⟨List.mem_cons_self _ _, gnac_keep_good entry ending hend hskip⟩
    · rw [show get_name_and_checksum (entry :: rest) ending
            = get_name_and_checksum rest ending by
          simp [get_name_and_checksum, hend]] at h
      exact ⟨List.mem_cons_of_mem _ (ih h).1, (ih h).2⟩

lemma gnac_error_iff (checksums : List ChecksumEntry) (ending : Str) :
    get_name_and_checksum checksums ending = .error noFormatError
      ↔ ∀ entry ∈ checksums, ¬ goodMatch entry ending := by
  induction checksums with
  | nil => simp [get_name_and_checksum]
  | cons entry rest ih =>
    by_cases hend : pyEndsWith entry.file ending = true
    · by_cases hskip : ((pyEndsWith entry.file (get_fileending (str "cds-fasta"))
                 && !(decide (ending = get_fileending (str "cds-fasta"))))
              || (pyEndsWith entry.file (get_fileending (str "rna-fasta"))
                 && !(decide (ending = get_fileending (str "rna-fasta"))))) = true
      · rw [show get_name_and_checksum (entry :: rest) ending
              = get_name_and_checksum rest ending by
            simp [get_name_and_checksum, hend, hskip]]
        simp only [List.mem_cons, forall_eq_or_imp]
        exact ⟨fun h => ⟨gnac_skip_not_good entry ending hskip, ih.mp h⟩,
               fun h => ih.mpr h.2⟩
      · rw [show get_name_and_checksum (entry :: rest) ending
              = .ok (entry.file, entry.checksum) by
            simp [get_name_and_checksum, hend, hskip]]
        constructor
        · intro h; cases h
        · intro h
          exact absurd (gnac_keep_good entry ending hend hskip)
            (h entry (List.mem_cons_self _ _))
    · rw [show get_name_and_checksum (entry :: rest) ending
            = get_name_and_checksum rest ending by
          simp [get_name_and_checksum, hend]]
      simp only [List.mem_cons, forall_eq_or_imp]
      constructor
      · intro h
        refine ⟨fun hgood => hend hgood.1, ih.mp h⟩
      · intro h; exact ih.mpr h.2

/-- Claim C1: for every parsed checksum list and requested suffix,
`get_name_and_checksum` returns the `(filename, checksum)` pair of an entry
of the list whose filename ends with the suffix, never an entry carrying the
`_cds_from_genomic.fna.gz` or `_rna_from_genomic.fna.gz` ending unless that
exact ending was requested; and it raises the "no such format" `ValueError`
exactly when no entry matches under that disambiguation rule. -/
theorem claim_C1_checksum_lookup (checksums : List ChecksumEntry) (ending : Str) :
    (∀ f c, get_name_and_checksum checksums ending = .ok (f, c) →
        ChecksumEntry.mk c f ∈ checksums
        ∧ pyEndsWith f ending = true
        ∧ (pyEndsWith f (get_fileending (str "cds-fasta")) = true
            → ending = get_fileending (str "cds-fasta"))
        ∧ (pyEndsWith f (get_fileending (str "rna-fasta")) = true
            → ending = get_fileending (str "rna-fasta")))
    ∧ (get_name_and_checksum checksums ending = .error noFormatError
        ↔ ∀ entry ∈ checksums, ¬ goodMatch entry ending) := by
  refine ⟨fun f c h => ?_, gnac_error_iff checksums ending⟩
  rcases gnac_ok_sound checksums ending f c h with ⟨hmem, hgood⟩
  exact ⟨hmem, hgood.1, hgood.2.1, hgood.2.2⟩

/-- Witness for C1: a checksum list holding the plain genomic fasta, the
cds-from-genomic and the rna-from-genomic files; looking up the plain
`_genomic.fna.gz` suffix returns the plain entry. -/
theorem claim_C1_checksum_lookup_witness :
    ChecksumEntry.mk (str "cafe") (str "X_genomic.fna.gz") ∈
        [ChecksumEntry.mk (str "f00d") (str "X_cds_from_genomic.fna.gz"),
         ChecksumEntry.mk (str "beef") (str "X_rna_from_genomic.fna.gz"),
         ChecksumEntry.mk (str "cafe") (str "X_genomic.fna.gz")]
      ∧ pyEndsWith (str "X_genomic.fna.gz") (str "_genomic.fna.gz") = true
      ∧ (pyEndsWith (str "X_genomic.fna.gz") (get_fileending (str "cds-fasta")) = true
          → str "_genomic.fna.gz" = get_fileending (str "cds-fasta"))
      ∧ (pyEndsWith (str "X_genomic.fna.gz") (get_fileending (str "rna-fasta")) = true
          → str "_genomic.fna.gz" = get_fileending (str "rna-fasta")) :=
  (claim_C1_checksum_lookup
      [ChecksumEntry.mk (str "f00d") (str "X_cds_from_genomic.fna.gz"),
       ChecksumEntry.mk (str "beef") (str "X_rna_from_genomic.fna.gz"),
       ChecksumEntry.mk (str "cafe") (str "X_genomic.fna.gz")]
      (str "_genomic.fna.gz")).1
    (str "X_genomic.fna.gz") (str "cafe") (by rfl)

/-- One row of the remote assembly index, restricted to the fields that the
filter chain, the strain-label derivation and job building read
(`AssemblyEntry` in the spec; a dict in the Python code). -/
structure Entry where
  assembly_accession : Str
  organism_name : Str
  infraspecific_name : Str
  isolate : Str
  species_taxid : Str
  taxid : Str
  assembly_level : Str
  refseq_category : Str
  relation_to_type_material : Str
  ftp_path : Str
deriving DecidableEq, Repr

/-- The `get_strain` function (core.py): infraspecific name (text after the
last `=`), else isolate, else the organism-name tokens after genus and
species for non-viral entries, else the assembly accession. -/
def get_strain (entry : Entry) (viral : Bool := false) : Str :=
  if entry.infraspecific_name ≠ [] then
    (pySplit '=' entry.infraspecific_name).getLastD []
  else if entry.isolate ≠ [] then
    entry.isolate
  else if 2 < (pySplit ' ' entry.organism_name).length ∧ viral = false then
    joinSpace ((pySplit ' ' entry.organism_name).drop 2)
  else
    entry.assembly_accession

/-- The inner `cleanup` helper of `get_strain_label` (core.py). -/
def cleanup (strain : Str) : Str :=
  replaceChar '\\' '_' (replaceChar '/' '_' (replaceChar ';' '_'
    (replaceChar ' ' '_' (pyStrip strain))))

/-- The `get_strain_label` function (core.py). -/
def get_strain_label (entry : Entry) (viral : Bool := false) : Str :=
  cleanup (get_strain entry viral)

/-- Test fixture from the spec: `infraspecific_name = "strain=ABC 1234"`,
`isolate = "ignored"`, `organism_name = "Genus species extra"`. -/
def exampleStrainEntry : Entry where
  assembly_accession := str "GCF_000000001.1"
  organism_name := str "Genus species extra"
  infraspecific_name := str "strain=ABC 1234"
  isolate := str "ignored"
  species_taxid := str "1"
  taxid := str "2"
  assembly_level := str "Complete Genome"
  refseq_category := str "na"
  relation_to_type_material := []
  ftp_path := str "ftp://host/path"

/-- Test fixture from the spec: all three strain sources empty and a
two-token organism name, so the label falls back to the accession. -/
def exampleAccessionEntry : Entry where
  assembly_accession := str "GCF_000203835.1"
  organism_name := str "Genus species"
  infraspecific_name := []
  isolate := []
  species_taxid := str "1"
  taxid := str "2"
  assembly_level := str "Complete Genome"
  refseq_category := str "na"
  relation_to_type_material := []
  ftp_path := str "ftp://host/path"

/-- Claim C4: the strain label follows first-matching-rule precedence —
text after the last `=` of a non-empty infraspecific name, else a non-empty
isolate, else for non-viral entries the organism-name tokens after the first
two joined with spaces, else the assembly accession — and the raw value is
trimmed and has each space, semicolon, slash and backslash replaced by an
underscore; `strain=ABC 1234` yields `ABC_1234`, and an entry whose three
strain sources are empty with a two-token organism name yields the literal
accession. -/
theorem claim_C4_strain_label :
    (∀ entry : Entry,
      (entry.infraspecific_name ≠ [] →
        get_strain_label entry
          = cleanup ((pySplit '=' entry.infraspecific_name).getLastD []))
      ∧ (entry.infraspecific_name = [] → entry.isolate ≠ [] →
        get_strain_label entry = cleanup entry.isolate)
      ∧ (entry.infraspecific_name = [] → entry.isolate = [] →
          2 < (pySplit ' ' entry.organism_name).length →
        get_strain_label entry
          = cleanup (joinSpace ((pySplit ' ' entry.organism_name).drop 2)))
      ∧ (entry.infraspecific_name = [] → entry.isolate = [] →
          ¬ 2 < (pySplit ' ' entry.organism_name).length →
        get_strain_label entry = cleanup entry.assembly_accession))
    ∧ (∀ s : Str, cleanup s = (pyStrip s).map fun c =>
        if c = ' ' ∨ c = ';' ∨ c = '/' ∨ c = '\\' then '_' else c)
    ∧ get_strain_label exampleStrainEntry = str "ABC_1234"
    ∧ get_strain_label exampleAccessionEntry = exampleAccessionEntry.assembly_accession := by
  refine ⟨fun entry => ⟨?_, ?_, ?_, ?_⟩, ?_, by decide, by decide⟩
  · intro h1
    simp [get_strain_label, get_strain, h1]
  · intro h1 h2
    simp [get_strain_label, get_strain, h1, h2]
  · intro h1 h2 h3
    simp [get_strain_label, get_strain, h1, h2, h3]
  · intro h1 h2 h3
    simp [get_strain_label, get_strain, h1, h2, h3]
  · intro s
    simp only [cleanup, replaceChar, List.map_map]
    refine congrArg (fun f => List.map f (pyStrip s)) ?_
    funext c
    by_cases h1 : c = ' '
    · subst h1; decide
    by_cases h2 : c = ';'
    · subst h2; decide
    by_cases h3 : c = '/'
    · subst h3; decide
    by_cases h4 : c = '\\'
    · subst h4; decide
    simp [h1, h2, h3, h4]

/-- Witness for C4: the precedence rule for a non-empty infraspecific name,
applied to the spec's `strain=ABC 1234` fixture. -/
theorem claim_C4_strain_label_witness :
    get_strain_label exampleStrainEntry
      = cleanup ((pySplit '=' exampleStrainEntry.infraspecific_name).getLastD []) :=
  (claim_C4_strain_label.1 exampleStrainEntry).1 (by decide)

/-- The filter-relevant slice of `NgdConfig` (config.py): the list-typed
filter fields together with the two fuzzy-matching flags. -/
structure NgdConfig where
  type_materials : List Str
  genera : List Str
  strains : List Str
  species_taxids : List Str
  taxids : List Str
  assembly_accessions : List Str
  assembly_levels : List Str
  refseq_categories : List Str
  fuzzy_genus : Bool
  fuzzy_accessions : Bool
deriving DecidableEq, Repr

/-- A configuration with every filter switched off. -/
def emptyConfig : NgdConfig where
  type_materials := []
  genera := []
  strains := []
  species_taxids := []
  taxids := []
  assembly_accessions := []
  assembly_levels := []
  refseq_categories := []
  fuzzy_genus := false
  fuzzy_accessions := false

/-- The `NgdConfig.is_compatible_assembly_accession` method (config.py). -/
def is_compatible_assembly_accession (config : NgdConfig) (acc : Str) : Bool :=
  -- if no filter was configured, it is a match
  if config.assembly_accessions = [] then
    true
  else if config.fuzzy_accessions = false then
    config.assembly_accessions.contains acc
  else
    config.assembly_accessions.any fun specified => pyStartsWith acc specified

/-- Claim C5: `is_compatible_assembly_accession` accepts everything when no
accession filter is configured; with a filter and fuzzy matching off it
accepts exactly the members of the configured list; with fuzzy matching on
it accepts exactly the accessions having some configured accession as a
prefix — so `GCF_000203835.1` is accepted under fuzzy and rejected under
exact matching for the configured list `["GCF_000203835"]`. -/
theorem claim_C5_accession_matching (config : NgdConfig) (acc : Str) :
    (config.assembly_accessions = [] →
      is_compatible_assembly_accession config acc = true)
    ∧ (config.assembly_accessions ≠ [] → config.fuzzy_accessions = false →
      (is_compatible_assembly_accession config acc = true
        ↔ acc ∈ config.assembly_accessions))
    ∧ (config.assembly_accessions ≠ [] → config.fuzzy_accessions = true →
      (is_compatible_assembly_accession config acc = true
        ↔ ∃ specified ∈ config.assembly_accessions, pyStartsWith acc specified = true))
    ∧ is_compatible_assembly_accession
        { emptyConfig with assembly_accessions := [str "GCF_000203835"],
                           fuzzy_accessions := true }
        (str "GCF_000203835.1") = true
    ∧ is_compatible_assembly_accession
        { emptyConfig with assembly_accessions := [str "GCF_000203835"],
                           fuzzy_accessions := false }
        (str "GCF_000203835.1") = false := by
  refine ⟨fun h => ?_, fun h hf => ?_, fun h hf => ?_, by decide, by decide⟩
  · simp [is_compatible_assembly_accession, h]
  · simp [is_compatible_assembly_accession, h, hf, List.elem_iff]
  · simp [is_compatible_assembly_accession, h, hf, List.any_eq_true]

/-- Witness for C5: the exact-mode clause applied to a concrete one-element
filter, showing membership is decisive. -/
theorem claim_C5_accession_matching_witness :
    is_compatible_assembly_accession
        { emptyConfig with assembly_accessions := [str "GCF_000203835"] }
        (str "GCF_000203835") = true
      ↔ str "GCF_000203835" ∈
          ({ emptyConfig with
              assembly_accessions := [str "GCF_000203835"] } : NgdConfig).assembly_accessions :=
  (claim_C5_accession_matching
      { emptyConfig with assembly_accessions := [str "GCF_000203835"] }
      (str "GCF_000203835")).2.1 (by decide) (by decide)

/-- The `NgdConfig._LEVELS` ordered mapping (config.py). -/
def LEVELS : List (Str × Str) := [
  (str "complete", str "Complete Genome"),
  (str "chromosome", str "Chromosome"),
  (str "scaffold", str "Scaffold"),
  (str "contig", str "Contig")
]

/-- The `NgdConfig._REFSEQ_CATEGORIES` ordered mapping (config.py). -/
def REFSEQ_CATEGORIES : List (Str × Str) := [
  (str "reference", str "reference genome"),
  (str "representative", str "representative genome"),
  (str "na", str "na")
]

/-- The `NgdConfig._RELATION_TO_TYPE_MATERIAL` ordered mapping (config.py). -/
def RELATION_TO_TYPE_MATERIAL : List (Str × Str) := [
  (str "type", str "assembly from type material"),
  (str "reference", str "assembly from reference material"),
  (str "synonym", str "assembly from synonym type material"),
  (str "proxytype", str "assembly from proxytype material"),
  (str "neotype", str "assembly designated as neotype")
]

/-- NCBI level string for a level key (`self._LEVELS[level]` in config.py).
Unknown keys — a `KeyError` in Python, unreachable for configurations built
through the validating setter — are totalised to the empty string. -/
def level_string (key : Str) : Str := (LEVELS.lookup key).getD []

/-- The `NgdConfig.get_refseq_category_string` classmethod (config.py),
totalised like `level_string`. -/
def get_refseq_category_string (key : Str) : Str :=
  (REFSEQ_CATEGORIES.lookup key).getD []

/-- NCBI type-material string for a relation key
(`config._RELATION_TO_TYPE_MATERIAL[x]` in core.py), totalised likewise. -/
def type_material_string (key : Str) : Str :=
  (RELATION_TO_TYPE_MATERIAL.lookup key).getD []

/-- The `NgdConfig.is_compatible_assembly_level` method (config.py). -/
def is_compatible_assembly_level (config : NgdConfig) (ncbi_assembly_level : Str) : Bool :=
  (config.assembly_levels.map level_string).contains ncbi_assembly_level

/-- The `NgdConfig.is_compatible_refseq_category` method (config.py). -/
def is_compatible_refseq_category (config : NgdConfig) (category : Str) : Bool :=
  (config.refseq_categories.map get_refseq_category_string).contains category

/-- Python `s.lower()`. -/
def pyLower (s : Str) : Str := s.map Char.toLower

/-- Python `s.capitalize()`: first character uppercased, the rest lowercased. -/
def pyCapitalize : Str → Str
  | [] => []
  | c :: rest => Char.toUpper c :: rest.map Char.toLower

/-- The `in_genus_list` closure inside `filter_entries` (core.py). -/
def in_genus_list (config : NgdConfig) (species : Str) : Bool :=
  config.genera.any fun genus =>
    if config.fuzzy_genus then
      containsSub (pyLower genus) (pyLower species)
    else
      pyStartsWith species genus || pyStartsWith species (pyCapitalize genus)

/-- The type-material test of `filter_entries` (core.py): entries are dropped
when a type-material constraint other than `any` is configured and the entry
has no relation-to-type-material value or one outside the requested set. -/
def type_material_check (config : NgdConfig) (entry : Entry) : Bool :=
  if config.type_materials ≠ [] ∧ config.type_materials ≠ [str "any"] then
    if entry.relation_to_type_material = [] then false
    else (config.type_materials.map type_material_string).contains
          entry.relation_to_type_material
  else true

/-- The genus test of `filter_entries` (core.py). -/
def genera_check (config : NgdConfig) (entry : Entry) : Bool :=
  if config.genera ≠ [] then in_genus_list config entry.organism_name else true

/-- The strain test of `filter_entries` (core.py). -/
def strains_check (config : NgdConfig) (entry : Entry) : Bool :=
  if config.strains ≠ [] then config.strains.contains (get_strain entry) else true

/-- The species-taxid test of `filter_entries` (core.py). -/
def species_taxids_check (config : NgdConfig) (entry : Entry) : Bool :=
  if config.species_taxids ≠ [] then
    config.species_taxids.contains entry.species_taxid
  else true

/-- The taxid test of `filter_entries` (core.py). -/
def taxids_check (config : NgdConfig) (entry : Entry) : Bool :=
  if config.taxids ≠ [] then config.taxids.contains entry.taxid else true

/-- The ftp-path test of `filter_entries` (core.py). -/
def ftp_path_check (entry : Entry) : Bool :=
  if entry.ftp_path = str "na" then false else true

/-- One entry's fate under the `filter_entries` continue-chain (core.py):
the chain of `continue` statements is the conjunction of its tests. -/
def keep_entry (config : NgdConfig) (entry : Entry) : Bool :=
  type_material_check config entry
    && genera_check config entry
    && strains_check config entry
    && species_taxids_check config entry
    && taxids_check config entry
    && is_compatible_assembly_accession config entry.assembly_accession
    && is_compatible_assembly_level config entry.assembly_level
    && is_compatible_refseq_category config entry.refseq_category
    && ftp_path_check entry

/-- The `filter_entries` function (core.py). -/
def filter_entries (entries : List Entry) (config : NgdConfig) : List Entry :=
  entries.filter (keep_entry config)

/-- Configuration `c2` imposes every filter constraint of `c` and possibly
more: each optional filter of `c` is either switched off or kept identically
(including its fuzzy flag where one applies), and the always-on level and
refseq-category lists of `c2` allow at most what `c` allows. -/
def RestrictsMore (c2 c : NgdConfig) : Prop :=
  (c.type_materials = [] ∨ c.type_materials = [str "any"]
      ∨ c2.type_materials = c.type_materials)
  ∧ (c.genera = [] ∨ (c2.genera = c.genera ∧ c2.fuzzy_genus = c.fuzzy_genus))
  ∧ (c.strains = [] ∨ c2.strains = c.strains)
  ∧ (c.species_taxids = [] ∨ c2.species_taxids = c.species_taxids)
  ∧ (c.taxids = [] ∨ c2.taxids = c.taxids)
  ∧ (c.assembly_accessions = []
      ∨ (c2.assembly_accessions = c.assembly_accessions
          ∧ c2.fuzzy_accessions = c.fuzzy_accessions))
  ∧ (∀ level ∈ c2.assembly_levels, level ∈ c.assembly_levels)
  ∧ (∀ category ∈ c2.refseq_categories, category ∈ c.refseq_categories)

lemma type_material_check_mono (c2 c : NgdConfig) (entry : Entry)
    (h : c.type_materials = [] ∨ c.type_materials = [str "any"]
          ∨ c2.type_materials = c.type_materials)
    (h2 : type_material_check c2 entry = true) :
    type_material_check c entry = true := by
  rcases h with h | h | h
  · simp [type_material_check, h]
  · simp [type_material_check, h]
  · simp only [type_material_check, ← h]
    simpa only [type_material_check] using h2

lemma genera_check_mono (c2 c : NgdConfig) (entry : Entry)
    (h : c.genera = [] ∨ (c2.genera = c.genera ∧ c2.fuzzy_genus = c.fuzzy_genus))
    (h2 : genera_check c2 entry = true) :
    genera_check c entry = true := by
  rcases h with h | ⟨hg, hf⟩
  · simp [genera_check, h]
  · simp only [genera_check, in_genus_list, ← hg, ← hf]
    simpa only [genera_check, in_genus_list] using h2

lemma strains_check_mono (c2 c : NgdConfig) (entry : Entry)
    (h : c.strains = [] ∨ c2.strains = c.strains)
    (h2 : strains_check c2 entry = true) :
    strains_check c entry = true := by
  rcases h with h | h
  · simp [strains_check, h]
  · simp only [strains_check, ← h]
    simpa only [strains_check] using h2

lemma species_taxids_check_mono (c2 c : NgdConfig) (entry : Entry)
    (h : c.species_taxids = [] ∨ c2.species_taxids = c.species_taxids)
    (h2 : species_taxids_check c2 entry = true) :
    species_taxids_check c entry = true := by
  rcases h with h | h
  · simp [species_taxids_check, h]
  · simp only [species_taxids_check, ← h]
    simpa only [species_taxids_check] using h2

lemma taxids_check_mono (c2 c : NgdConfig) (entry : Entry)
    (h : c.taxids = [] ∨ c2.taxids = c.taxids)
    (h2 : taxids_check c2 entry = true) :
    taxids_check c entry = true := by
  rcases h with h | h
  · simp [taxids_check, h]
  · simp only [taxids_check, ← h]
    simpa only [taxids_check] using h2

lemma accession_compat_mono (c2 c : NgdConfig) (acc : Str)
    (h : c.assembly_accessions = []
          ∨ (c2.assembly_accessions = c.assembly_accessions
              ∧ c2.fuzzy_accessions = c.fuzzy_accessions))
    (h2 : is_compatible_assembly_accession c2 acc = true) :
    is_compatible_assembly_accession c acc = true := by
  rcases h with h | ⟨ha, hf⟩
  · simp [is_compatible_assembly_accession, h]
  · simp only [is_compatible_assembly_accession, ← ha, ← hf]
    simpa only [is_compatible_assembly_accession] using h2

lemma level_compat_mono (c2 c : NgdConfig) (ncbi_assembly_level : Str)
    (h : ∀ level ∈ c2.assembly_levels, level ∈ c.assembly_levels)
    (h2 : is_compatible_assembly_level c2 ncbi_assembly_level = true) :
    is_compatible_assembly_level c ncbi_assembly_level = true := by
  simp only [is_compatible_assembly_level, List.elem_iff, List.mem_map] at h2 ⊢
  rcases h2 with ⟨level, hmem, hval⟩
  exact ⟨level, h level hmem, hval⟩

lemma refseq_compat_mono (c2 c : NgdConfig) (category : Str)
    (h : ∀ cat ∈ c2.refseq_categories, cat ∈ c.refseq_categories)
    (h2 : is_compatible_refseq_category c2 category = true) :
    is_compatible_refseq_category c category = true := by
  simp only [is_compatible_refseq_category, List.elem_iff, List.mem_map] at h2 ⊢
  rcases h2 with ⟨cat, hmem, hval⟩
  exact ⟨cat, h cat hmem, hval⟩

/-- Claim C6: whenever configuration `c2` imposes every filter constraint of
`c` plus possibly more, the entries surviving `filter_entries` under `c2`
form a subset of those surviving under `c`. -/
theorem claim_C6_filter_monotone (entries : List Entry) (c2 c : NgdConfig)
    (h : RestrictsMore c2 c) :
    ∀ entry ∈ filter_entries entries c2, entry ∈ filter_entries entries c := by
  intro entry hmem
  rcases h with ⟨htm, hg, hs, hst, ht, ha, hl, hr⟩
  rw [filter_entries, List.mem_filter] at hmem ⊢
  refine ⟨hmem.1, ?_⟩
  have hk := hmem.2
  simp only [keep_entry, Bool.and_eq_true] at hk ⊢
  rcases hk with ⟨⟨⟨⟨⟨⟨⟨⟨k1, k2⟩, k3⟩, k4⟩, k5⟩, k6⟩, k7⟩, k8⟩, k9⟩
  exact ⟨⟨⟨⟨⟨⟨⟨⟨type_material_check_mono c2 c entry htm k1,
    genera_check_mono c2 c entry hg k2⟩,
    strains_check_mono c2 c entry hs k3⟩,
    species_taxids_check_mono c2 c entry hst k4⟩,
    taxids_check_mono c2 c entry ht k5⟩,
    accession_compat_mono c2 c entry.assembly_accession ha k6⟩,
    level_compat_mono c2 c entry.assembly_level hl k7⟩,
    refseq_compat_mono c2 c entry.refseq_category hr k8⟩, k9⟩

/-- Witness for C6: a configuration restricting levels to `complete` and
adding a strain filter is more restrictive than one allowing `complete` and
`chromosome` with no strain filter; the subset relation holds on a concrete
entry list. -/
theorem claim_C6_filter_monotone_witness :
    exampleAccessionEntry ∈
      filter_entries [exampleAccessionEntry, exampleStrainEntry]
        { emptyConfig with assembly_levels := [str "complete", str "chromosome"],
                           refseq_categories := [str "na"] } :=
  claim_C6_filter_monotone [exampleAccessionEntry, exampleStrainEntry]
    { emptyConfig with assembly_levels := [str "complete"],
                       refseq_categories := [str "na"],
                       strains := [str "GCF_000203835.1"] }
    { emptyConfig with assembly_levels := [str "complete", str "chromosome"],
                       refseq_categories := [str "na"] }
    (by constructor
        · exact Or.inl rfl
        constructor
        · exact Or.inl rfl
        constructor
        · exact Or.inl rfl
        constructor
        · exact Or.inl rfl
        constructor
        · exact Or.inl rfl
        constructor
        · exact Or.inl rfl
        exact ⟨by decide, by decide⟩)
    exampleAccessionEntry (by decide)

/-- The `SUPPORTED_TAXONOMIC_GROUPS` constant (config.py). -/
def SUPPORTED_TAXONOMIC_GROUPS : List Str := [
  str "archaea",
  str "bacteria",
  str "fungi",
  str "invertebrate",
  str "metagenomes",
  str "plant",
  str "protozoa",
  str "vertebrate_mammalian",
  str "vertebrate_other",
  str "viral"
]

/-- The `GENBANK_EXCLUSIVE` constant (config.py). -/
def GENBANK_EXCLUSIVE : List Str := [str "metagenomes"]

/-- The `_DEFAULTS['groups']` choice list (config.py). -/
def default_groups : List Str := str "all" :: SUPPORTED_TAXONOMIC_GROUPS

/-- The `_DEFAULTS['file_formats']` choice list (config.py). -/
def default_file_formats : List Str := FORMATS.map Prod.fst ++ [str "all"]

/-- The `_DEFAULTS['assembly_levels']` choice list (config.py). -/
def default_assembly_levels : List Str := str "all" :: LEVELS.map Prod.fst

/-- The `_DEFAULTS['refseq_categories']` choice list (config.py). -/
def default_refseq_categories : List Str :=
  str "all" :: REFSEQ_CATEGORIES.map Prod.fst

/-- The `_DEFAULTS['type_materials']` choice list (config.py). -/
def default_type_materials : List Str :=
  str "any" :: str "all" :: RELATION_TO_TYPE_MATERIAL.map Prod.fst

/-- The `NgdConfig.available_groups` property (config.py): every supported
taxonomic group, with the genbank-exclusive ones dropped under refseq. -/
def available_groups (sect : Str) : List Str :=
  if sect = str "refseq" then
    SUPPORTED_TAXONOMIC_GROUPS.filter fun g => !(GENBANK_EXCLUSIVE.contains g)
  else
    SUPPORTED_TAXONOMIC_GROUPS

/-- The shared validation loop of the list-typed setters (config.py): raise
`ValueError` at the first token outside the declared domain. -/
def validate_tokens (domain : List Str) : List Str → Except Str Unit
  | [] => .ok ()
  | token :: rest =>
    if token ∈ domain then validate_tokens domain rest
    else .error token

/-- The validation loop of the `groups` setter (config.py): reject tokens
outside the declared domain and, under the refseq section, the
genbank-exclusive groups. -/
def validate_group_tokens (sect : Str) : List Str → Except Str Unit
  | [] => .ok ()
  | group :: rest =>
    if group ∉ default_groups then .error group
    else if sect = str "refseq" ∧ group ∈ GENBANK_EXCLUSIVE then .error group
    else validate_group_tokens sect rest

/-- The `groups` setter (config.py), for a value already split into tokens. -/
def set_groups (sect : Str) (value : List Str) : Except Str (List Str) :=
  (validate_group_tokens sect value).map fun _ =>
    if str "all" ∈ value then available_groups sect else value

/-- The `file_formats` setter (config.py), for a tokenised value. -/
def set_file_formats (value : List Str) : Except Str (List Str) :=
  (validate_tokens default_file_formats value).map fun _ =>
    if str "all" ∈ value then FORMATS.map Prod.fst else value

/-- The `assembly_levels` setter (config.py), for a tokenised value. -/
def set_assembly_levels (value : List Str) : Except Str (List Str) :=
  (validate_tokens default_assembly_levels value).map fun _ =>
    if str "all" ∈ value then LEVELS.map Prod.fst else value

/-- The `refseq_categories` setter (config.py), for a tokenised value. -/
def set_refseq_categories (value : List Str) : Except Str (List Str) :=
  (validate_tokens default_refseq_categories value).map fun _ =>
    if str "all" ∈ value then REFSEQ_CATEGORIES.map Prod.fst else value

/-- The `type_materials` setter (config.py), for a tokenised value: `all`
expands to every relation key, else `any` collapses the list to `["any"]`. -/
def set_type_materials (value : List Str) : Except Str (List Str) :=
  (validate_tokens default_type_materials value).map fun _ =>
    if str "all" ∈ value then RELATION_TO_TYPE_MATERIAL.map Prod.fst
    else if str "any" ∈ value then [str "any"]
    else value

lemma except_unit_not_ok {r : Except Str Unit} (h : ¬ r = .ok ()) :
    ∃ e, r = .error e := by
  cases r with
  | error e => exact ⟨e, rfl⟩
  | ok u => cases u; exact absurd rfl h

lemma validate_tokens_ok (domain value : List Str) :
    validate_tokens domain value = .ok () ↔ ∀ t ∈ value, t ∈ domain := by
  induction value with
  | nil => simp [validate_tokens]
  | cons t rest ih =>
    by_cases h : t ∈ domain
    · simp [validate_tokens, h, ih]
    · simp [validate_tokens, h]

lemma validate_group_tokens_ok (sect : Str) (value : List Str) :
    validate_group_tokens sect value = .ok ()
      ↔ ∀ g ∈ value, g ∈ default_groups
          ∧ ¬(sect = str "refseq" ∧ g ∈ GENBANK_EXCLUSIVE) := by
  induction value with
  | nil => simp [validate_group_tokens]
  | cons g rest ih =>
    by_cases h1 : g ∈ default_groups
    · by_cases h2 : sect = str "refseq" ∧ g ∈ GENBANK_EXCLUSIVE
      · simp [validate_group_tokens, h1, h2]
      · rw [show validate_group_tokens sect (g :: rest)
              = validate_group_tokens sect rest by
            simp [validate_group_tokens, h1, h2]]
        rw [ih]
        simp only [List.mem_cons, forall_eq_or_imp]
        exact ⟨fun h => ⟨⟨h1, h2⟩, h⟩, fun h => h.2⟩
    · simp [validate_group_tokens, h1]

lemma except_map_error {f : Unit → List Str} {r : Except Str Unit}
    (h : ¬ r = .ok ()) : ∃ e, r.map f = .error e := by
  obtain ⟨e, he⟩ := except_unit_not_ok h
  exact ⟨e, by simp [he, Except.map]⟩

lemma except_map_ok {f : Unit → List Str} {r : Except Str Unit} {stored : List Str}
    (h : r.map f = .ok stored) : r = .ok () ∧ stored = f () := by
  cases r with
  | error e => simp [Except.map] at h
  | ok u =>
    cases u
    simp only [Except.map, Except.ok.injEq] at h
    exact ⟨rfl, h.symm⟩

lemma available_groups_subset (sect : Str) :
    ∀ g ∈ available_groups sect, g ∈ SUPPORTED_TAXONOMIC_GROUPS := by
  intro g hg
  unfold available_groups at hg
  split at hg
  · exact (List.mem_filter.mp hg).1
  · exact hg

/-- Claim C7: each enumerated list-typed setter (groups, file formats,
assembly levels, refseq categories, type materials) rejects any value
containing a token outside its declared domain at assignment time, stores
only domain values on success, and expands the sentinel `all` to the full
enumerated domain (for groups, the groups available in the configured
section) at assignment time. -/
theorem claim_C7_setter_domains :
    (∀ sect value,
      ((∃ t ∈ value, t ∉ default_groups) → ∃ e, set_groups sect value = .error e)
      ∧ (∀ stored, set_groups sect value = .ok stored →
          ∀ x ∈ stored, x ∈ default_groups)
      ∧ (str "all" ∈ value → ∀ stored, set_groups sect value = .ok stored →
          stored = available_groups sect))
    ∧ (∀ value,
      ((∃ t ∈ value, t ∉ default_file_formats) →
          ∃ e, set_file_formats value = .error e)
      ∧ (∀ stored, set_file_formats value = .ok stored →
          ∀ x ∈ stored, x ∈ default_file_formats)
      ∧ (str "all" ∈ value → ∀ stored, set_file_formats value = .ok stored →
          stored = FORMATS.map Prod.fst))
    ∧ (∀ value,
      ((∃ t ∈ value, t ∉ default_assembly_levels) →
          ∃ e, set_assembly_levels value = .error e)
      ∧ (∀ stored, set_assembly_levels value = .ok stored →
          ∀ x ∈ stored, x ∈ default_assembly_levels)
      ∧ (str "all" ∈ value → ∀ stored, set_assembly_levels value = .ok stored →
          stored = LEVELS.map Prod.fst))
    ∧ (∀ value,
      ((∃ t ∈ value, t ∉ default_refseq_categories) →
          ∃ e, set_refseq_categories value = .error e)
      ∧ (∀ stored, set_refseq_categories value = .ok stored →
          ∀ x ∈ stored, x ∈ default_refseq_categories)
      ∧ (str "all" ∈ value → ∀ stored, set_refseq_categories value = .ok stored →
          stored = REFSEQ_CATEGORIES.map Prod.fst))
    ∧ (∀ value,
      ((∃ t ∈ value, t ∉ default_type_materials) →
          ∃ e, set_type_materials value = .error e)
      ∧ (∀ stored, set_type_materials value = .ok stored →
          ∀ x ∈ stored, x ∈ default_type_materials)
      ∧ (str "all" ∈ value → ∀ stored, set_type_materials value = .ok stored →
          stored = RELATION_TO_TYPE_MATERIAL.map Prod.fst)) := by
  refine ⟨fun sect value => ⟨?_, ?_, ?_⟩, fun value => ⟨?_, ?_, ?_⟩,
    fun value => ⟨?_, ?_, ?_⟩, fun value => ⟨?_, ?_, ?_⟩, fun value => ⟨?_, ?_, ?_⟩⟩
  · intro h
    refine except_map_error fun hok => ?_
    rcases h with ⟨t, htv, htd⟩
    exact htd ((validate_group_tokens_ok sect value).mp hok t htv).1
  · intro stored hok x hx
    obtain ⟨hval, hstored⟩ := except_map_ok hok
    subst hstored
    by_cases hall : str "all" ∈ value
    · rw [if_pos hall] at hx
      exact List.mem_cons_of_mem _ (available_groups_subset sect x hx)
    · rw [if_neg hall] at hx
      exact ((validate_group_tokens_ok sect value).mp hval x hx).1
  · intro hall stored hok
    obtain ⟨_, hstored⟩ := except_map_ok hok
    simp [hall] at hstored
    exact hstored
  · intro h
    refine except_map_error fun hok => ?_
    rcases h with ⟨t, htv, htd⟩
    exact htd ((validate_tokens_ok _ value).mp hok t htv)
  · intro stored hok x hx
    obtain ⟨hval, hstored⟩ := except_map_ok hok
    subst hstored
    by_cases hall : str "all" ∈ value
    · rw [if_pos hall] at hx
      exact List.mem_append_left _ hx
    · rw [if_neg hall] at hx
      exact (validate_tokens_ok _ value).mp hval x hx
  · intro hall stored hok
    obtain ⟨_, hstored⟩ := except_map_ok hok
    simp [hall] at hstored
    exact hstored
  · intro h
    refine except_map_error fun hok => ?_
    rcases h with ⟨t, htv, htd⟩
    exact htd ((validate_tokens_ok _ value).mp hok t htv)
  · intro stored hok x hx
    obtain ⟨hval, hstored⟩ := except_map_ok hok
    subst hstored
    by_cases hall : str "all" ∈ value
    · rw [if_pos hall] at hx
      exact List.mem_cons_of_mem _ hx
    · rw [if_neg hall] at hx
      exact (validate_tokens_ok _ value).mp hval x hx
  · intro hall stored hok
    obtain ⟨_, hstored⟩ := except_map_ok hok
    simp [hall] at hstored
    exact hstored
  · intro h
    refine except_map_error fun hok => ?_
    rcases h with ⟨t, htv, htd⟩
    exact htd ((validate_tokens_ok _ value).mp hok t htv)
  · intro stored hok x hx
    obtain ⟨hval, hstored⟩ := except_map_ok hok
    subst hstored
    by_cases hall : str "all" ∈ value
    · rw [if_pos hall] at hx
      exact List.mem_cons_of_mem _ hx
    · rw [if_neg hall] at hx
      exact (validate_tokens_ok _ value).mp hval x hx
  · intro hall stored hok
    obtain ⟨_, hstored⟩ := except_map_ok hok
    simp [hall] at hstored
    exact hstored
  · intro h
    refine except_map_error fun hok => ?_
    rcases h with ⟨t, htv, htd⟩
    exact htd ((validate_tokens_ok _ value).mp hok t htv)
  · intro stored hok x hx
    obtain ⟨hval, hstored⟩ := except_map_ok hok
    subst hstored
    by_cases hall : str "all" ∈ value
    · rw [if_pos hall] at hx
      exact List.mem_cons_of_mem _ (List.mem_cons_of_mem _ hx)
    · rw [if_neg hall] at hx
      by_cases hany : str "any" ∈ value
      · rw [if_pos hany] at hx
        rcases List.mem_singleton.mp hx with hx
        subst hx
        exact List.mem_cons_self _ _
      · rw [if_neg hany] at hx
        exact (validate_tokens_ok _ value).mp hval x hx
  · intro hall stored hok
    obtain ⟨_, hstored⟩ := except_map_ok hok
    simp [hall] at hstored
    exact hstored

/-- Witness for C7: the file-formats setter rejects a value containing a
token outside its domain. -/
theorem claim_C7_setter_domains_witness :
    ∃ e, set_file_formats [str "fasta", str "bogus"] = .error e :=
  (claim_C7_setter_domains.2.1 [str "fasta", str "bogus"]).1
    ⟨str "bogus", by decide, by decide⟩

/-- Claim C9: under the refseq section the groups setter rejects any value
containing `metagenomes`, and `all` expands to every supported taxonomic
group except `metagenomes`; under the genbank section `all` expands to all
ten supported groups, `metagenomes` included. -/
theorem claim_C9_refseq_group_exclusion :
    (∀ value, str "metagenomes" ∈ value →
      ∃ e, set_groups (str "refseq") value = .error e)
    ∧ set_groups (str "refseq") [str "all"]
        = .ok [str "archaea", str "bacteria", str "fungi", str "invertebrate",
               str "plant", str "protozoa", str "vertebrate_mammalian",
               str "vertebrate_other", str "viral"]
    ∧ set_groups (str "genbank") [str "all"] = .ok SUPPORTED_TAXONOMIC_GROUPS
    ∧ SUPPORTED_TAXONOMIC_GROUPS.length = 10
    ∧ str "metagenomes" ∈ SUPPORTED_TAXONOMIC_GROUPS := by
  refine ⟨fun value hmem => ?_, by rfl, by rfl, by decide, by decide⟩
  refine except_map_error fun hok => ?_
  have h := (validate_group_tokens_ok (str "refseq") value).mp hok _ hmem
  exact h.2 ⟨rfl, by decide⟩

/-- Witness for C9: a single-element `["metagenomes"]` assignment under
refseq is rejected. -/
theorem claim_C9_refseq_group_exclusion_witness :
    ∃ e, set_groups (str "refseq") [str "metagenomes"] = .error e :=
  claim_C9_refseq_group_exclusion.1 [str "metagenomes"] (by decide)

/-- The outcome skeleton of `config_download` (core.py).  The two effectful
phases inside its `try` block are passed as oracles: `fetch` abstracts
`select_candidates` (whose network fetch may raise
`requests.exceptions.ConnectionError`, modelled as `Except.error ()`), and
`rest` abstracts the job-building, download and metadata-write phase for the
candidate list, which may raise the same connection error.  The sequential
(`parallel == 1`) mode is modelled; the `KeyboardInterrupt` path of pooled
mode is unreachable here. -/
def config_download (fetch : Except Unit (List (Entry × Str))) (dry_run : Bool)
    (rest : List (Entry × Str) → Except Unit Unit) : Nat :=
  match fetch with
  | .error _ => 75
  | .ok download_candidates =>
    if download_candidates.length < 1 then 1
    else if dry_run then 0
    else
      match rest download_candidates with
      | .error _ => 75
      | .ok _ => 0

/-- Claim C3: `config_download` returns a small integer outcome code with
three distinct values — 0 on a completed run, the distinct non-zero code 1
whenever filtering yields zero candidates (in which case the job-building
phase is never consulted: the result is the same for every `rest` oracle),
and the distinct sentinel 75 when a transient connection error occurs in
either phase, rather than an exception escaping the call. -/
theorem claim_C3_outcome_codes :
    (∀ fetch rest cands, fetch = .ok cands → ¬ cands.length < 1 →
        rest cands = .ok () → config_download fetch false rest = 0)
    ∧ (∀ fetch rest rest2, fetch = .ok ([] : List (Entry × Str)) →
        config_download fetch false rest = 1
        ∧ config_download fetch false rest = config_download fetch false rest2)
    ∧ (∀ rest, config_download (.error ()) false rest = 75)
    ∧ (∀ fetch rest cands, fetch = .ok cands → ¬ cands.length < 1 →
        rest cands = .error () → config_download fetch false rest = 75)
    ∧ (0 : Nat) ≠ 1 ∧ (0 : Nat) ≠ 75 ∧ (1 : Nat) ≠ 75 := by
  refine ⟨fun fetch rest cands hf hlen hr => ?_, fun fetch rest rest2 hf => ?_,
    fun rest => rfl, fun fetch rest cands hf hlen hr => ?_,
    by decide, by decide, by decide⟩
  · subst hf
    simp [config_download, hlen, hr]
  · subst hf
    exact ⟨rfl, rfl⟩
  · subst hf
    simp [config_download, hlen, hr]

/-- Witness for C3: a successful run over one candidate returns 0. -/
theorem claim_C3_outcome_codes_witness :
    config_download (.ok [(exampleAccessionEntry, str "bacteria")]) false
      (fun _ => .ok ()) = 0 :=
  claim_C3_outcome_codes.1 (.ok [(exampleAccessionEntry, str "bacteria")])
    (fun _ => .ok ()) [(exampleAccessionEntry, str "bacteria")]
    rfl (by decide) rfl

/-- The `DownloadJob` record (jobs.py), with structural equality. -/
structure DownloadJob where
  full_url : Option Str
  local_file : Str
  expected_checksum : Option Str
  symlink_path : Option Str
deriving DecidableEq, Repr

/-- The `convert_ftp_url` function (core.py). -/
def convert_ftp_url (url : Str) : Str :=
  replaceFirst (str "ftp://") (str "https://") url

/-- The `has_file_changed` function (core.py).  The filesystem is abstracted
by `localDigest`: `none` when the path is not a file, else the md5 digest of
its content. -/
def has_file_changed (localDigest : Str → Option Str) (directory : Str)
    (checksums : List ChecksumEntry) (filetype : Str) : Except Str Bool :=
  match get_name_and_checksum checksums (get_fileending filetype) with
  | .error e => .error e
  | .ok (filename, expected_checksum) =>
    match localDigest (pathJoin directory filename) with
    | none => .ok true
    | some actual_checksum =>
      .ok (if expected_checksum = actual_checksum then false else true)

/-- The `need_to_create_symlink` function (core.py).  `existingLink` returns
the target of an existing symlink at a path, or `none`. -/
def need_to_create_symlink (existingLink : Str → Option Str) (directory : Str)
    (checksums : List ChecksumEntry) (filetype : Str) (symlink_path : Option Str) :
    Except Str Bool :=
  match symlink_path with
  | none => .ok false
  | some sp =>
    match get_name_and_checksum checksums (get_fileending filetype) with
    | .error e => .error e
    | .ok (filename, _) =>
      match existingLink (pathJoin sp filename) with
      | some existing_link =>
        .ok (if pathJoin directory filename = existing_link then false else true)
      | none => .ok true

/-- The `download_file_job` function (core.py). -/
def download_file_job (entry : Entry) (directory : Str)
    (checksums : List ChecksumEntry) (filetype : Str) (symlink_path : Option Str) :
    Except Str DownloadJob :=
  match get_name_and_checksum checksums (get_fileending filetype) with
  | .error e => .error e
  | .ok (filename, expected_checksum) =>
    .ok ⟨some (pathJoin (convert_ftp_url entry.ftp_path) filename),
         pathJoin directory filename,
         some expected_checksum,
         symlink_path.map fun sp => pathJoin sp filename⟩

/-- The `create_symlink_job` function (core.py). -/
def create_symlink_job (directory : Str) (checksums : List ChecksumEntry)
    (filetype : Str) (symlink_path : Str) : Except Str DownloadJob :=
  match get_name_and_checksum checksums (get_fileending filetype) with
  | .error e => .error e
  | .ok (filename, _) =>
    .ok ⟨none, pathJoin directory filename, none,
         some (pathJoin symlink_path filename)⟩

/-- The body of the per-format loop in `create_downloadjob` (core.py): the
jobs one configured file format contributes for one entry, or the
`ValueError` of a failed checksum lookup. -/
def downloadjob_for_format (localDigest existingLink : Str → Option Str)
    (entry : Entry) (directory : Str) (symlink_path : Option Str)
    (checksums : List ChecksumEntry) (filetype : Str) :
    Except Str (List DownloadJob) :=
  match has_file_changed localDigest directory checksums filetype with
  | .error e => .error e
  | .ok true =>
    match download_file_job entry directory checksums filetype symlink_path with
    | .error e => .error e
    | .ok job => .ok [job]
  | .ok false =>
    match need_to_create_symlink existingLink directory checksums filetype
        symlink_path with
    | .error e => .error e
    | .ok true =>
      match symlink_path with
      | some sp =>
        match create_symlink_job directory checksums filetype sp with
        | .error e => .error e
        | .ok job => .ok [job]
      -- unreachable: need_to_create_symlink is false without a symlink path
      | none => .ok []
    | .ok false => .ok []

/-- The per-format loop of `create_downloadjob` (core.py): a `ValueError`
raised for one file format is caught there and only logged, so that format
contributes no job and the loop moves on to the next format. -/
def create_downloadjob (localDigest existingLink : Str → Option Str)
    (entry : Entry) (directory : Str) (symlink_path : Option Str)
    (checksums : List ChecksumEntry) : List Str → List DownloadJob
  | [] => []
  | filetype :: fmts =>
    (match downloadjob_for_format localDigest existingLink entry directory
        symlink_path checksums filetype with
     | .ok jobs => jobs
     | .error _ => [])
      ++ create_downloadjob localDigest existingLink entry directory
          symlink_path checksums fmts

/-- Claim C8: a checksum-lookup failure for one configured format is caught
at per-format granularity during job building — the failing format
contributes no job (the job list equals the one computed without that
format), while every other configured format still contributes all its
jobs. -/
theorem claim_C8_per_format_isolation (localDigest existingLink : Str → Option Str)
    (entry : Entry) (directory : Str) (symlink_path : Option Str)
    (checksums : List ChecksumEntry) (formats : List Str) (filetype msg : Str)
    (hfail : downloadjob_for_format localDigest existingLink entry directory
        symlink_path checksums filetype = .error msg) :
    create_downloadjob localDigest existingLink entry directory symlink_path
        checksums formats
      = create_downloadjob localDigest existingLink entry directory symlink_path
          checksums (formats.filter fun g => !(decide (g = filetype)))
    ∧ ∀ g ∈ formats, g ≠ filetype →
        ∀ jobs, downloadjob_for_format localDigest existingLink entry directory
            symlink_path checksums g = .ok jobs →
        ∀ job ∈ jobs,
          job ∈ create_downloadjob localDigest existingLink entry directory
              symlink_path checksums formats := by
  induction formats with
  | nil => exact ⟨rfl, by simp⟩
  | cons g fmts ih =>
    constructor
    · by_cases hg : g = filetype
      · subst hg
        rw [show (g :: fmts).filter (fun g2 => !(decide (g2 = g)))
              = fmts.filter (fun g2 => !(decide (g2 = g))) by simp]
        rw [show create_downloadjob localDigest existingLink entry directory
              symlink_path checksums (g :: fmts)
              = create_downloadjob localDigest existingLink entry directory
                  symlink_path checksums fmts by
            simp [create_downloadjob, hfail]]
        exact ih.1
      · rw [show (g :: fmts).filter (fun g2 => !(decide (g2 = filetype)))
              = g :: fmts.filter (fun g2 => !(decide (g2 = filetype))) by simp [hg]]
        simp only [create_downloadjob]
        rw [ih.1]
    · intro g2 hg2 hne jobs hok job hjob
      simp only [create_downloadjob]
      rcases List.mem_cons.mp hg2 with hg2 | hg2
      · subst hg2
        rw [hok]
        exact List.mem_append_left _ hjob
      · exact List.mem_append_right _ (ih.2 g2 hg2 hne jobs hok job hjob)

/-- Witness for C8: with a manifest holding only the genomic fasta file, the
`genbank` format's lookup fails while the `fasta` format still produces its
download job, so the job list equals the one for `["fasta"]` alone. -/
theorem claim_C8_per_format_isolation_witness :
    create_downloadjob (fun _ => none) (fun _ => none) exampleAccessionEntry
        (str "out") none [ChecksumEntry.mk (str "cafe") (str "X_genomic.fna.gz")]
        [str "genbank", str "fasta"]
      = create_downloadjob (fun _ => none) (fun _ => none) exampleAccessionEntry
          (str "out") none [ChecksumEntry.mk (str "cafe") (str "X_genomic.fna.gz")]
          ([str "genbank", str "fasta"].filter fun g => !(decide (g = str "genbank"))) :=
  (claim_C8_per_format_isolation (fun _ => none) (fun _ => none)
      exampleAccessionEntry (str "out") none
      [ChecksumEntry.mk (str "cafe") (str "X_genomic.fna.gz")]
      [str "genbank", str "fasta"] (str "genbank") noFormatError (by rfl)).1

/-- The one-shot repair condition inside `SummaryReader.__next__`
(summary.py): the line's submitter field is non-empty, the field one past
the ftp_path column starts with `ftp://`, and all three positions touched
by the check and the `pop` are in range (a Python `IndexError` from any of
them is caught and turns the attempt into a skip). -/
def fix_applies (fields parts : List Str) : Prop :=
  fields.indexOf (str "submitter") < parts.length
  ∧ fields.indexOf (str "ftp_path") + 1 < parts.length
  ∧ parts.getD (fields.indexOf (str "submitter")) [] ≠ []
  ∧ pyStartsWith (parts.getD (fields.indexOf (str "ftp_path") + 1) [])
      (str "ftp://") = true
  ∧ fields.indexOf (str "submitter") + 1 < parts.length

instance (fields parts : List Str) : Decidable (fix_applies fields parts) := by
  unfold fix_applies
  infer_instance

/-- The `SummaryReader.__next__` method (summary.py) on the remaining input
lines (`readline` past the end of the list returns the empty string, which
the loop treats as `StopIteration`, modelled as `Option.none`).  A record is
the field-name/value pairing of a line whose tab-split field count matches
the header, or of a line repaired by removing the field after the submitter
column when `fix_applies` holds; other mismatched lines are skipped.  When
the header lacks a `submitter` or `ftp_path` column, the `fields.index`
calls — made before the surrounding `try` — raise an uncaught `ValueError`
on any mismatched line, modelled as `Except.error ()`. -/
def read_entry (fields : List Str) : List Str → Except Unit (Option (List (Str × Str) × List Str))
  | [] => .ok none
  | line :: rest =>
    if line = [] then .ok none
    else
      let parts := pySplit '\t' line
      if parts.length = fields.length then
        .ok (some (fields.zip parts, rest))
      else
        if fields.contains (str "submitter") && fields.contains (str "ftp_path") then
          if fix_applies fields parts then
            let fixed := parts.eraseIdx (fields.indexOf (str "submitter") + 1)
            if fixed.length = fields.length then
              .ok (some (fields.zip fixed, rest))
            else
              read_entry fields rest
          else
            read_entry fields rest
        else
          .error ()

/-- Counterexample to claim C2 as stated: under the header
`assembly_accession / submitter / ftp_path`, the data line
`GCF_1⟨tab⟩JGI⟨tab⟩oops⟨tab⟩ftp://x` has four tab-split fields against the
header's three, yet the reader yields a record derived from it (the
extra-tab repair removes the field after the submitter column). -/
theorem claim_C2_counterexample :
    (pySplit '\t' (str "GCF_1\tJGI\toops\tftp://x")).length
        ≠ [str "assembly_accession", str "submitter", str "ftp_path"].length
    ∧ read_entry [str "assembly_accession", str "submitter", str "ftp_path"]
        [str "GCF_1\tJGI\toops\tftp://x"]
      = .ok (some ([(str "assembly_accession", str "GCF_1"),
                    (str "submitter", str "JGI"),
                    (str "ftp_path", str "ftp://x")], [])) :=
  ⟨by decide, by rfl⟩

/-- Claim C2 as amended: a data line whose tab-split field count differs
from the header's yields no record and parsing continues at the next line,
except when the reader's one-shot repair applies (non-empty submitter field
and an `ftp://` value one column past ftp_path, all in range), in which case
the field after the submitter column is removed and, if the count then
matches, a record derived from the repaired line is yielded; when the header
lacks a `submitter` or `ftp_path` column, a mismatched line instead raises
an uncaught error. -/
theorem claim_C2_mismatched_line_amended (fields : List Str) (line : Str)
    (rest : List Str) (hline : line ≠ [])
    (hmismatch : (pySplit '\t' line).length ≠ fields.length) :
    (¬(fields.contains (str "submitter") = true
        ∧ fields.contains (str "ftp_path") = true) →
      read_entry fields (line :: rest) = .error ())
    ∧ (fields.contains (str "submitter") = true →
       fields.contains (str "ftp_path") = true →
       ¬ fix_applies fields (pySplit '\t' line) →
      read_entry fields (line :: rest) = read_entry fields rest)
    ∧ (fields.contains (str "submitter") = true →
       fields.contains (str "ftp_path") = true →
       fix_applies fields (pySplit '\t' line) →
      read_entry fields (line :: rest)
        = if ((pySplit '\t' line).eraseIdx
                (fields.indexOf (str "submitter") + 1)).length = fields.length
          then .ok (some (fields.zip ((pySplit '\t' line).eraseIdx
                  (fields.indexOf (str "submitter") + 1)), rest))
          else read_entry fields rest) := by
  have hstep : read_entry fields (line :: rest)
      = (if (fields.contains (str "submitter")
              && fields.contains (str "ftp_path")) = true then
          (if fix_applies fields (pySplit '\t' line) then
            (if ((pySplit '\t' line).eraseIdx
                    (fields.indexOf (str "submitter") + 1)).length
                  = fields.length then
              .ok (some (fields.zip ((pySplit '\t' line).eraseIdx
                      (fields.indexOf (str "submitter") + 1)), rest))
            else read_entry fields rest)
          else read_entry fields rest)
        else .error ()) := by
    simp only [read_entry, if_neg hline, if_neg hmismatch]
  refine ⟨fun hmissing => ?_, fun hsub hftp hnofix => ?_, fun hsub hftp hfix => ?_⟩
  · rw [hstep, if_neg fun hc => hmissing (Bool.and_eq_true_iff.mp hc)]
  · rw [hstep, if_pos (Bool.and_eq_true_iff.mpr ⟨hsub, hftp⟩), if_neg hnofix]
  · rw [hstep, if_pos (Bool.and_eq_true_iff.mpr ⟨hsub, hftp⟩), if_pos hfix]

/-- Witness for the amended C2: a mismatched line that the repair cannot
touch (empty submitter field) is skipped, then end of stream stops the
iteration cleanly. -/
theorem claim_C2_mismatched_line_amended_witness :
    read_entry [str "assembly_accession", str "submitter", str "ftp_path"]
        [str "GCF_1\t\toops\tother", str "a\tb\tc"]
      = read_entry [str "assembly_accession", str "submitter", str "ftp_path"]
          [str "a\tb\tc"] :=
  (claim_C2_mismatched_line_amended
      [str "assembly_accession", str "submitter", str "ftp_path"]
      (str "GCF_1\t\toops\tother") [str "a\tb\tc"]
      (by decide) (by decide)).2.1 (by decide) (by decide) (by decide)

/-- The header-field extraction of `SummaryReader.__init__` (summary.py):
strip a leading `"# "` and split the line on tabs. -/
def header_fields (line : Str) : List Str :=
  pySplit '\t' (if pyStartsWith line (str "# ") then line.drop 2 else line)

/-- The header-scan loop of `SummaryReader.__init__` (summary.py), with the
number of `readline` calls as explicit fuel: keep reading until a line
contains the token `assembly_accession`.  Past the end of the input,
`readline` returns the empty string, which does not contain the token, so
the loop keeps spinning — modelled by recursion on `[]` that only consumes
fuel. -/
def find_header : Nat → List Str → Option (List Str)
  | 0, _ => none
  | Nat.succ fuel, [] => find_header fuel []
  | Nat.succ fuel, line :: rest =>
    if containsSub (str "assembly_accession") line then some (header_fields line)
    else find_header fuel rest

lemma find_header_nil (fuel : Nat) : find_header fuel [] = none := by
  induction fuel with
  | zero => rfl
  | succ f ih => simpa [find_header] using ih

lemma find_header_complete (lines : List Str) :
    ∀ fuel, lines.length ≤ fuel →
      find_header fuel lines
        = (lines.find? fun l => containsSub (str "assembly_accession") l).map
            header_fields := by
  induction lines with
  | nil =>
    intro fuel _
    simp [find_header_nil]
  | cons line rest ih =>
    intro fuel hlen
    cases fuel with
    | zero => exact absurd hlen (by simp)
    | succ f =>
      by_cases hc : containsSub (str "assembly_accession") line = true
      · simp [find_header, hc, List.find?]
      · rw [show find_header (Nat.succ f) (line :: rest) = find_header f rest by
            simp [find_header, hc]]
        rw [ih f (Nat.le_of_succ_le_succ hlen)]
        simp [List.find?, Bool.eq_false_iff.mpr hc]

lemma find_header_diverges (lines : List Str)
    (h : ∀ l ∈ lines, containsSub (str "assembly_accession") l = false) :
    ∀ fuel, find_header fuel lines = none := by
  induction lines with
  | nil => exact find_header_nil
  | cons line rest ih =>
    intro fuel
    cases fuel with
    | zero => rfl
    | succ f =>
      rw [show find_header (Nat.succ f) (line :: rest) = find_header f rest by
          simp [find_header, h line (List.mem_cons_self _ _)]]
      exact ih (fun l hl => h l (List.mem_cons_of_mem _ hl)) f

/-- Claim C10: the header scan of the Summary Parser terminates exactly on
inputs containing a line with the token `assembly_accession` — given at
least as much fuel as there are lines it returns the fields of the first
such line (with a leading `"# "` stripped, split on tabs), while on an
input with no such line it returns nothing at every fuel, because
`readline` returning the empty string at end of file never exits the
search loop. -/
theorem claim_C10_header_scan (lines : List Str) (fuel : Nat) :
    (lines.length ≤ fuel →
      find_header fuel lines
        = (lines.find? fun l => containsSub (str "assembly_accession") l).map
            header_fields)
    ∧ ((∀ l ∈ lines, containsSub (str "assembly_accession") l = false) →
      find_header fuel lines = none) :=
  ⟨find_header_complete lines fuel, fun h => find_header_diverges lines h fuel⟩

/-- Witness for C10: on a stream whose second line is the commented header,
three reads find it and return its fields. -/
theorem claim_C10_header_scan_witness :
    find_header 3 [str "#  See docs", str "# assembly_accession\tftp_path",
        str "GCF_1\tftp://x"]
      = ([str "#  See docs", str "# assembly_accession\tftp_path",
          str "GCF_1\tftp://x"].find? fun l =>
            containsSub (str "assembly_accession") l).map header_fields :=
  (claim_C10_header_scan [str "#  See docs", str "# assembly_accession\tftp_path",
      str "GCF_1\tftp://x"] 3).1 (by decide)

end NGD
